import Mathlib

/-!
# Verification of the browser-container pool manager (`BrowserManager`)

Shallow embedding of `src/src/BrowserManager/index.ts`.

Modelling conventions:
* The slot table `_browsers : Record<string, Browser>` is an insertion-ordered
  association list `List (String × Browser)`; `Object.values` is `map Prod.snd`
  in that order.  All mutators keep the entry in place (JS assignment to an
  existing key preserves position).
* Optional string fields of `Browser` (`webhook?`, `sessionID?`, …) are plain
  `String`s with `""` for `undefined`: every code path that reads them only
  tests JS truthiness, for which `undefined` and `""` coincide.
* `labels?: Record<string,string>` is a total `List (String × String)`; the
  guard `if (!labels) labels = {}` in the event handler is the identity here.
* `_timeoutObjs` is modelled as the set of slot names with an *armed* timer:
  `clearTimeout` disarms (removed from the list), `setTimeout` arms.
* `_sockets` is the set of slot names with a live socket.
* Wall-clock reads (`Date.now()`) are passed in as an explicit `now : Int`.
* Each `docker` CLI invocation consumes one value of an oracle
  `Nat → DockerRes` giving that attempt's outcome; the commands actually
  issued are returned as a trace.
* `process.env.MANAGE_ONLY` is the explicit parameter `manageOnly : Bool`.
-/

/-- Outcome of one container-runtime CLI invocation, as `killBrowser`'s
`catch` distinguishes them: success, an error whose text contains
`no such container`, or any other error. -/
inductive DockerRes where
  | ok : DockerRes
  | noSuch : DockerRes
  | err : DockerRes
deriving DecidableEq, Repr

/-- The three external ports of a slot (`Browser.ports`). -/
structure Ports where
  vnc : Nat
  app : Nat
  browser : Nat
deriving DecidableEq, Repr

/-- Viewport `{width, height}`. -/
structure Viewport where
  width : Nat
  height : Nat
deriving DecidableEq, Repr

/-- One slot record, mirroring the TS `Browser` type field by field
(times as `Int` so the sentinel `-1` is representable). -/
structure Browser where
  name : String
  index : Nat
  isUp : Bool
  isRemoving : Bool
  lastUsed : Int
  createdAt : Int
  leaseTime : Int
  ports : Ports
  vncPassword : String
  isDebug : Bool
  viewport : Viewport
  labels : List (String × String)
  webhook : String
  sessionID : String
  fingerprintID : String
  clientID : String
  driver : String
  reportKey : String
  sessionUUID : String
deriving DecidableEq, Repr

/-- The manager's mutable state: slot table, socket set, armed-timer set and
the global `_isKilling` flag. -/
structure MState where
  browsers : List (String × Browser)
  sockets : List String
  timers : List String
  isKilling : Bool
deriving DecidableEq, Repr

/-- `this._browsers[k]` (read). -/
def blookup (k : String) (bs : List (String × Browser)) : Option Browser :=
  (bs.find? (fun p => p.1 == k)).map Prod.snd

/-- In-place update of the entry under key `k` (JS assignment to an existing
key keeps its position; assignment to an absent key never happens on the
modelled paths, all of which guard existence first). -/
def bupdate (k : String) (f : Browser → Browser) :
    List (String × Browser) → List (String × Browser)
  | [] => []
  | p :: rest => if p.1 == k then (p.1, f p.2) :: rest else p :: bupdate k f rest

/-- `Object.values(this._browsers)` in insertion order. -/
def bvalues (bs : List (String × Browser)) : List Browser :=
  bs.map Prod.snd

/-- `labels[k]` (read). -/
def lookupLabel (k : String) (l : List (String × String)) : Option String :=
  (l.find? (fun p => p.1 == k)).map Prod.snd

/-- `labels[k] = v`: overwrite in place when the key exists, else append
(JS object assignment order semantics). -/
def upsertLabel (k v : String) : List (String × String) → List (String × String)
  | [] => [(k, v)]
  | p :: rest => if p.1 == k then (k, v) :: rest else p :: upsertLabel k v rest

/-- Arm membership in a name set (`_sockets[name] = socket`,
`_timeoutObjs[name] = setTimeout(...)`). -/
def insertName (n : String) (l : List String) : List String :=
  if l.contains n then l else l ++ [n]

/-- Disarm membership in a name set (`clearTimeout` / `delete`). -/
def removeName (n : String) (l : List String) : List String :=
  l.filter (fun x => x ≠ n)

/-- `resetTimeout(name)`: `clearTimeout` of the stored handle, if any. -/
def resetTimeout (name : String) (st : MState) : MState :=
  { st with timers := removeName name st.timers }

/-- `setTimeout(name, t)`: records `lastUsed = Date.now()` and arms the
lease timer. -/
def setLeaseTimeout (name : String) (now : Int) (st : MState) : MState :=
  { st with
    browsers := bupdate name (fun b => { b with lastUsed := now }) st.browsers
    timers := insertName name st.timers }

/-- `reserveBrowser(leaseTime)`: find the first slot with
`b.isUp && b.leaseTime === -1`; if none, return `undefined`; otherwise set
its `leaseTime`, call `setTimeout` (which also stamps `lastUsed`), and return
the (mutated) slot object. -/
def reserveBrowser (leaseTime now : Int) (st : MState) : Option Browser × MState :=
  match (bvalues st.browsers).find? (fun b => b.isUp && b.leaseTime == -1) with
  | none => (none, st)
  | some b =>
    let st1 : MState :=
      { st with browsers := bupdate b.name (fun x => { x with leaseTime := leaseTime }) st.browsers }
    let st2 := setLeaseTimeout b.name now st1
    (some { b with leaseTime := leaseTime, lastUsed := now }, st2)

/-- The four agent events delivered on the `browser:container:event` channel. -/
inductive AgentEvent where
  | setState (id ip : String)
  | setLabel (labelName labelValue : String)
  | setParam (param value : String)
  | deleted (isError : Bool) (message : String) (sessionData : String)
deriving DecidableEq, Repr

/-- JSON body of the completion webhook POST. -/
structure WebhookPost where
  clientID : String
  sessionUUID : String
  sessionData : String
  isError : Bool
  error : String
  reportKey : String
deriving DecidableEq, Repr

/-- The `node:deleted` branch: guarded by truthy `sessionID && clientID`;
`sessionData` is taken from the payload only when `fingerprintID` is truthy;
the POST is issued only when `webhook`, `reportKey` and `sessionUUID` are
all non-empty.  Webhook transport failures are swallowed, so only the
emitted request matters. -/
def nodeDeletedPost (b : Browser) (isError : Bool) (message sessionData : String) :
    Option WebhookPost :=
  if b.sessionID ≠ "" ∧ b.clientID ≠ "" then
    let sd := if b.fingerprintID ≠ "" then sessionData else ""
    -- `webhook && webhook !== ""` (and likewise for reportKey, sessionUUID):
    -- both conjuncts are non-emptiness for a string field.
    if b.webhook ≠ "" ∧ b.reportKey ≠ "" ∧ b.sessionUUID ≠ "" then
      some { clientID := b.clientID, sessionUUID := b.sessionUUID, sessionData := sd,
             isError := isError, error := message, reportKey := b.reportKey }
    else none
  else none

/-- The `browser:container:event` handler for slot `name`: returns the new
state and the webhook POST emitted, if any.  Missing slots log
`BROWSER_NOT_FOUND` and return; `node:deleted` mutates no slot field. -/
def handleContainerEvent (name : String) (ev : AgentEvent) (st : MState) :
    MState × Option WebhookPost :=
  match blookup name st.browsers with
  | none => (st, none)
  | some b =>
    match ev with
    | .setState id ip =>
      let f : Browser → Browser := fun x =>
        { x with labels := upsertLabel "ip" ip (upsertLabel "id" id x.labels), isUp := true }
      ({ st with browsers := bupdate name f st.browsers }, none)
    | .setLabel k v =>
      let f : Browser → Browser := fun x => { x with labels := upsertLabel k v x.labels }
      ({ st with browsers := bupdate name f st.browsers }, none)
    | .setParam k v =>
      let f : Browser → Browser := fun x => { x with labels := upsertLabel k v x.labels }
      ({ st with browsers := bupdate name f st.browsers }, none)
    | .deleted isError message sessionData =>
      (st, nodeDeletedPost b isError message sessionData)

/-- `Partial<Browser>`: a key is present (`some`) or absent (`none`). -/
structure BrowserUpdate where
  name : Option String := none
  index : Option Nat := none
  isUp : Option Bool := none
  isRemoving : Option Bool := none
  lastUsed : Option Int := none
  createdAt : Option Int := none
  leaseTime : Option Int := none
  ports : Option Ports := none
  vncPassword : Option String := none
  isDebug : Option Bool := none
  viewport : Option Viewport := none
  labels : Option (List (String × String)) := none
  webhook : Option String := none
  sessionID : Option String := none
  fingerprintID : Option String := none
  clientID : Option String := none
  driver : Option String := none
  reportKey : Option String := none
  sessionUUID : Option String := none
deriving DecidableEq, Repr

/-- The spread `{ ...old, ...updates }`: every key present in `updates`
overrides the old field. -/
def applyUpdate (u : BrowserUpdate) (b : Browser) : Browser :=
  { name := u.name.getD b.name
    index := u.index.getD b.index
    isUp := u.isUp.getD b.isUp
    isRemoving := u.isRemoving.getD b.isRemoving
    lastUsed := u.lastUsed.getD b.lastUsed
    createdAt := u.createdAt.getD b.createdAt
    leaseTime := u.leaseTime.getD b.leaseTime
    ports := u.ports.getD b.ports
    vncPassword := u.vncPassword.getD b.vncPassword
    isDebug := u.isDebug.getD b.isDebug
    viewport := u.viewport.getD b.viewport
    labels := u.labels.getD b.labels
    webhook := u.webhook.getD b.webhook
    sessionID := u.sessionID.getD b.sessionID
    fingerprintID := u.fingerprintID.getD b.fingerprintID
    clientID := u.clientID.getD b.clientID
    driver := u.driver.getD b.driver
    reportKey := u.reportKey.getD b.reportKey
    sessionUUID := u.sessionUUID.getD b.sessionUUID }

/-- `updateBrowser(name, updates)`: shallow merge into the existing record;
no-op when the name is absent. -/
def updateBrowser (name : String) (u : BrowserUpdate) (st : MState) : MState :=
  if (blookup name st.browsers).isSome then
    { st with browsers := bupdate name (applyUpdate u) st.browsers }
  else st

/-- Static configuration (the fields the modelled operations read).
`browserPref` is the source's `browserPrefix`; `resolutionWidth/Height`
are `resolution.{width,height}`. -/
structure Config where
  browserPref : String
  numBrowsers : Nat
  baseBrowserPort : Nat
  baseBrowserAppPort : Nat
  baseBrowserVncPort : Nat
  maxRetries : Nat
  killWaitTime : Nat
  resolutionWidth : Nat
  resolutionHeight : Nat
deriving DecidableEq, Repr

/-- How a `killBrowser` call ended: the guarded early return on an unknown
name, the normal path through the state reset, the `no such container`
early return, or a thrown error after exhausting retries. -/
inductive KOutcome where
  | missing : KOutcome
  | cleaned : KOutcome
  | alreadyGone : KOutcome
  | threw : KOutcome
deriving DecidableEq, Repr

/-- Result of a `killBrowser` call: final state, how it ended, and the
container-runtime commands it issued (in order). -/
structure KillResult where
  st : MState
  outcome : KOutcome
  cmds : List String
deriving DecidableEq, Repr

/-- The non-MANAGE_ONLY reset block of `killBrowser`: everything cleared,
`createdAt = Date.now()`.  `driver`, `vncPassword`, `isDebug`, `viewport`,
`name`, `index`, `ports` survive via the spread. -/
def clearSlotFull (now : Int) (b : Browser) : Browser :=
  { b with isUp := false, isRemoving := false, lastUsed := -1, createdAt := now,
           leaseTime := -1, labels := [], webhook := "", sessionID := "",
           clientID := "", fingerprintID := "", sessionUUID := "", reportKey := "" }

/-- The MANAGE_ONLY reset block of `killBrowser`: same as the full reset but
`createdAt` is not in the literal, so it survives via the spread. -/
def clearSlotManage (b : Browser) : Browser :=
  { b with isUp := false, isRemoving := false, lastUsed := -1,
           leaseTime := -1, labels := [], webhook := "", sessionID := "",
           clientID := "", fingerprintID := "", sessionUUID := "", reportKey := "" }

/-- `connectToBrowser`: the only lasting state effect is storing the socket
(`this._sockets[name] = socket`); event handlers fire later. -/
def connectSock (name : String) (st : MState) : MState :=
  { st with sockets := insertName name st.sockets }

/-- `killBrowser(name, tryNum)` body.  `fuel` is a structural bound on the
retry recursion; the wrapper passes `maxRetries + 1 - tryNum`, which the
guard `tryNum < maxRetries` never exhausts, so the `fuel = 0` branch is
unreachable from the wrapper.  Mirrors the source order:
existence guard → `isRemoving := true` when `tryNum == 0` → `resetTimeout`
→ `stop`/`restart` → (on success, in MANAGE_ONLY: `connectToBrowser`) →
socket cleanup → state reset; the catch returns on `no such container`,
recurses while `tryNum < maxRetries`, else rethrows. -/
def killAux (maxRetries : Nat) (manageOnly : Bool) (oracle : Nat → DockerRes)
    (now : Int) (name : String) : Nat → Nat → MState → KillResult
  | fuel, tryNum, st =>
    match blookup name st.browsers with
    | none => ⟨st, .missing, []⟩
    | some _ =>
      match fuel with
      | 0 => ⟨st, .threw, []⟩
      | fuel' + 1 =>
        let st1 :=
          if tryNum == 0 then
            { st with browsers := bupdate name (fun b => { b with isRemoving := true }) st.browsers }
          else st
        let st2 := resetTimeout name st1
        let cmd := (if manageOnly then "restart " else "stop ") ++ name
        match oracle tryNum with
        | .ok =>
          let st3 := if manageOnly then connectSock name st2 else st2
          let st4 := { st3 with sockets := removeName name st3.sockets }
          let clear := if manageOnly then clearSlotManage else clearSlotFull now
          let st5 := { st4 with browsers := bupdate name clear st4.browsers }
          ⟨st5, .cleaned, [cmd]⟩
        | .noSuch => ⟨st2, .alreadyGone, [cmd]⟩
        | .err =>
          if tryNum < maxRetries then
            let r := killAux maxRetries manageOnly oracle now name fuel' (tryNum + 1) st2
            ⟨r.st, r.outcome, cmd :: r.cmds⟩
          else ⟨st2, .threw, [cmd]⟩

/-- `killBrowser(name, tryNum)`. -/
def killBrowser (cfg : Config) (manageOnly : Bool) (oracle : Nat → DockerRes)
    (now : Int) (name : String) (st : MState) (tryNum : Nat) : KillResult :=
  killAux cfg.maxRetries manageOnly oracle now name (cfg.maxRetries + 1 - tryNum) tryNum st

/-- The fresh slot record built at the top of `init`'s loop for index `i`. -/
def mkInitBrowser (cfg : Config) (i : Nat) (now : Int) : Browser :=
  { name := cfg.browserPref ++ "-" ++ toString (cfg.baseBrowserPort + i)
    index := i
    isUp := false
    isRemoving := false
    lastUsed := -1
    createdAt := now
    leaseTime := -1
    ports := ⟨cfg.baseBrowserVncPort + i, cfg.baseBrowserAppPort + i, cfg.baseBrowserPort + i⟩
    vncPassword := ""
    isDebug := false
    viewport := ⟨cfg.resolutionWidth, cfg.resolutionHeight⟩
    labels := []
    webhook := ""
    sessionID := ""
    clientID := ""
    fingerprintID := ""
    sessionUUID := ""
    reportKey := ""
    driver := "" }

/-- `initContainer`'s creation `while` loop.  `oracle k = true` means the
`docker run` of attempt `k` succeeds.  Returns `(threw, attemptsIssued)`.
`fuel` bounds the loop; the wrapper passes `maxRetries`, enough because each
iteration increments `attempts`. -/
def runRetryAux (maxRetries : Nat) (oracle : Nat → Bool) (shouldCrash : Bool) :
    Nat → Nat → Bool × Nat
  | _, 0 => (false, 0)
  | attempts, fuel + 1 =>
    if attempts < maxRetries then
      if oracle attempts then (false, 1)
      else
        let attempts' := attempts + 1
        if attempts' == maxRetries then (shouldCrash, 1)
        else
          let r := runRetryAux maxRetries oracle shouldCrash attempts' fuel
          (r.1, r.2 + 1)
    else (false, 0)

/-- The whole creation loop of `initContainer`, from `attempts = 0`. -/
def runRetry (maxRetries : Nat) (oracle : Nat → Bool) (shouldCrash : Bool) : Bool × Nat :=
  runRetryAux maxRetries oracle shouldCrash 0 maxRetries

/-- `initContainer(name, index, resolution, shouldCrash)`: run the creation
loop, propagate the throw when it crashes, and otherwise `connectToBrowser`
(which always runs, even when the loop exhausted without success and
`shouldCrash` is false). -/
def initContainer (cfg : Config) (oracle : Nat → Bool) (shouldCrash : Bool)
    (name : String) (st : MState) : Except Unit MState :=
  if (runRetry cfg.maxRetries oracle shouldCrash).1 then .error ()
  else .ok (connectSock name st)

/-- The per-slot loop of `init` (full-lifecycle mode): for each `i`,
store a fresh record, issue the ignored pre-emptive `kill`, then
`initContainer(..., shouldCrashIfFailed = true)` — note the literal `true`
for every `i`.  `oracle i k` is the outcome of slot `i`'s attempt `k`. -/
def initSlotsAux (cfg : Config) (oracle : Nat → Nat → Bool) (now : Int) :
    Nat → Nat → MState → Except Unit MState
  | _, 0, st => .ok st
  | i, remaining + 1, st =>
    let name := cfg.browserPref ++ "-" ++ toString (cfg.baseBrowserPort + i)
    let st1 := { st with browsers := st.browsers ++ [(name, mkInitBrowser cfg i now)] }
    match initContainer cfg (oracle i) true name st1 with
    | .error e => .error e
    | .ok st2 => initSlotsAux cfg oracle now (i + 1) remaining st2

/-- The container-creation phase of `init(pullOnStart)` in full-lifecycle
mode (after the docker-availability check and optional pull). -/
def initPool (cfg : Config) (oracle : Nat → Nat → Bool) (now : Int) (st : MState) :
    Except Unit MState :=
  initSlotsAux cfg oracle now 0 cfg.numBrowsers st

/-- `killAllExisting`'s loop over the table's keys. -/
def killList (cfg : Config) (manageOnly : Bool) (oracle : String → Nat → DockerRes)
    (now : Int) : List String → MState → MState
  | [], st => st
  | n :: ns, st => killList cfg manageOnly oracle now ns (killBrowser cfg manageOnly (oracle n) now n st 0).st

/-- `killAllExisting()`: set `_isKilling`, then `killBrowser(name, 0)` for
every key of the table. -/
def killAllExisting (cfg : Config) (manageOnly : Bool) (oracle : String → Nat → DockerRes)
    (now : Int) (st : MState) : MState :=
  let st1 : MState := { st with isKilling := true }
  killList cfg manageOnly oracle now (st1.browsers.map Prod.fst) st1

/-- The socket `disconnect` handler for slot `name`: `resetTimeout`, mark
the slot not up, and schedule `initContainer` (after 2 s) exactly when
`!this._isKilling && !manageOnly`.  The returned Bool is whether the
re-creation was scheduled. -/
def onDisconnect (manageOnly : Bool) (name : String) (st : MState) : MState × Bool :=
  let st1 := resetTimeout name st
  let st2 := { st1 with browsers := bupdate name (fun b => { b with isUp := false }) st1.browsers }
  (st2, !st.isKilling && !manageOnly)

/-- Process a sequence of disconnect events; the Bool is whether any of
them scheduled a container re-creation. -/
def disconnectSeq (manageOnly : Bool) : List String → MState → MState × Bool
  | [], st => (st, false)
  | n :: ns, st =>
    let r := onDisconnect manageOnly n st
    let r2 := disconnectSeq manageOnly ns r.1
    (r2.1, r.2 || r2.2)

/-! ## Association-list lemmas -/

theorem blookup_bupdate_self (k : String) (f : Browser → Browser)
    (bs : List (String × Browser)) :
    blookup k (bupdate k f bs) = (blookup k bs).map f := by
  induction bs with
  | nil => simp [blookup, bupdate]
  | cons p rest ih =>
    by_cases h : p.1 = k
    · simp [blookup, bupdate, h]
    · have h' : (p.1 == k) = false := by simp [h]
      simp only [bupdate, h', Bool.false_eq_true, if_false]
      simp only [blookup, List.find?_cons, h'] at ih ⊢
      exact ih

theorem blookup_bupdate_ne (k k' : String) (f : Browser → Browser)
    (bs : List (String × Browser)) (h : k' ≠ k) :
    blookup k' (bupdate k f bs) = blookup k' bs := by
  induction bs with
  | nil => rfl
  | cons p rest ih =>
    by_cases hp : p.1 = k
    · have hne : (p.1 == k') = false := beq_eq_false_iff_ne.mpr (fun e => h (e ▸ hp))
      have hpk : (p.1 == k) = true := beq_iff_eq.mpr hp
      simp [blookup, bupdate, hpk, hne, List.find?_cons]
    · have hp' : (p.1 == k) = false := by simp [hp]
      simp only [bupdate, hp', Bool.false_eq_true, if_false]
      simp only [blookup, List.find?_cons] at ih ⊢
      by_cases hq : p.1 = k'
      · simp [hq]
      · have hq' : (p.1 == k') = false := by simp [hq]
        simp [hq', ih]

theorem lookupLabel_upsert_self (k v : String) (l : List (String × String)) :
    lookupLabel k (upsertLabel k v l) = some v := by
  induction l with
  | nil => simp [lookupLabel, upsertLabel]
  | cons p rest ih =>
    by_cases h : p.1 = k
    · simp [lookupLabel, upsertLabel, h]
    · have h' : (p.1 == k) = false := by simp [h]
      simp only [upsertLabel, h', Bool.false_eq_true, if_false]
      simp only [lookupLabel, List.find?_cons, h'] at ih ⊢
      exact ih

theorem lookupLabel_upsert_ne (k k' v : String) (l : List (String × String))
    (h : k' ≠ k) :
    lookupLabel k' (upsertLabel k v l) = lookupLabel k' l := by
  induction l with
  | nil =>
    have hkk : (k == k') = false := beq_eq_false_iff_ne.mpr (fun e => h e.symm)
    simp [lookupLabel, upsertLabel, hkk]
  | cons p rest ih =>
    by_cases hp : p.1 = k
    · have hkk : (k == k') = false := beq_eq_false_iff_ne.mpr (fun e => h e.symm)
      have hpk : (p.1 == k) = true := beq_iff_eq.mpr hp
      have hne : (p.1 == k') = false := beq_eq_false_iff_ne.mpr (fun e => h (e ▸ hp))
      simp [lookupLabel, upsertLabel, hpk, hkk, hne, List.find?_cons]
    · have hp' : (p.1 == k) = false := by simp [hp]
      simp only [upsertLabel, hp', Bool.false_eq_true, if_false]
      simp only [lookupLabel, List.find?_cons] at ih ⊢
      by_cases hq : p.1 = k'
      · simp [hq]
      · have hq' : (p.1 == k') = false := by simp [hq]
        simp [hq', ih]

/-! ## Shared concrete fixtures (spec §8 literals: prefix `bx`, port bases
`10222/7070/15900`, resolution `1280x720`, `maxRetries = 3`) -/

def sampleBrowser : Browser :=
  { name := "bx-10222", index := 0, isUp := true, isRemoving := false,
    lastUsed := -1, createdAt := 0, leaseTime := -1,
    ports := ⟨15900, 7070, 10222⟩, vncPassword := "", isDebug := false,
    viewport := ⟨1280, 720⟩, labels := [], webhook := "", sessionID := "",
    fingerprintID := "", clientID := "", driver := "", reportKey := "",
    sessionUUID := "" }

def sampleConfig : Config :=
  { browserPref := "bx", numBrowsers := 2, baseBrowserPort := 10222,
    baseBrowserAppPort := 7070, baseBrowserVncPort := 15900,
    maxRetries := 3, killWaitTime := 100,
    resolutionWidth := 1280, resolutionHeight := 720 }

/-! ## C1 — reserve returns only Ready slots; absence is `none` -/

/-- C1: if `reserveBrowser` returns a browser then some slot of the
pre-state with that name satisfied `isUp = true` and `leaseTime = -1`
(the Ready condition), and when no slot satisfies it, the result is
`none` (not an error). -/
theorem reserveBrowser_ready_or_none (leaseTime now : Int) (st : MState) :
    (∀ b, (reserveBrowser leaseTime now st).1 = some b →
      ∃ b0 ∈ bvalues st.browsers, b0.name = b.name ∧ b0.isUp = true ∧ b0.leaseTime = -1) ∧
    ((∀ b0 ∈ bvalues st.browsers, ¬(b0.isUp = true ∧ b0.leaseTime = -1)) →
      (reserveBrowser leaseTime now st).1 = none) := by
  constructor
  · intro b hb
    unfold reserveBrowser at hb
    cases hfind : (bvalues st.browsers).find? (fun b => b.isUp && b.leaseTime == -1) with
    | none => rw [hfind] at hb; simp at hb
    | some b0 =>
      rw [hfind] at hb
      simp only [Option.some.injEq] at hb
      have hmem := List.mem_of_find?_eq_some hfind
      have hpred := List.find?_some hfind
      simp only [Bool.and_eq_true, beq_iff_eq] at hpred
      exact ⟨b0, hmem, by rw [← hb], hpred.1, hpred.2⟩
  · intro hnone
    unfold reserveBrowser
    cases hfind : (bvalues st.browsers).find? (fun b => b.isUp && b.leaseTime == -1) with
    | none => simp
    | some b0 =>
      have hmem := List.mem_of_find?_eq_some hfind
      have hpred := List.find?_some hfind
      simp only [Bool.and_eq_true, beq_iff_eq] at hpred
      exact absurd ⟨hpred.1, hpred.2⟩ (hnone b0 hmem)

/-- C1 witness: on a concrete one-slot Ready table the theorem's first part
produces the Ready pre-slot, and on an all-leased table the second part
evaluates to `none`. -/
theorem reserveBrowser_ready_or_none_witness :
    (∃ b0 ∈ bvalues (MState.mk [("bx-10222", sampleBrowser)] [] [] false).browsers,
      b0.name = "bx-10222" ∧ b0.isUp = true ∧ b0.leaseTime = -1) ∧
    (reserveBrowser 5 100 (MState.mk [("bx-10222", { sampleBrowser with leaseTime := 7 })] [] [] false)).1 = none := by
  constructor
  · have h := (reserveBrowser_ready_or_none 5 100 (MState.mk [("bx-10222", sampleBrowser)] [] [] false)).1
      { sampleBrowser with leaseTime := 5, lastUsed := 100 } (by decide)
    obtain ⟨b0, hmem, hname, hup, hlease⟩ := h
    exact ⟨b0, hmem, by rw [hname]; rfl, hup, hlease⟩
  · exact (reserveBrowser_ready_or_none 5 100 _).2 (by decide)

/-! ## C7 — does an in-flight release hide the slot from `reserve`? -/

/-- C7 counterexample: a state whose only slot has `isRemoving = true` (a
release in flight) but `isUp = true` and `leaseTime = -1`; `reserveBrowser`
returns that very slot, because its predicate never consults `isRemoving`. -/
theorem reserveBrowser_returns_removing_slot_cex :
    (reserveBrowser 5 100
        (MState.mk [("bx-10222", { sampleBrowser with isRemoving := true })] [] [] false)).1 =
      some { sampleBrowser with isRemoving := true, leaseTime := 5, lastUsed := 100 } ∧
    ({ sampleBrowser with isRemoving := true } : Browser).isRemoving = true := by
  exact ⟨by decide, rfl⟩

/-- C7 (amended): `reserveBrowser` consults only `isUp` and `leaseTime`, so
an in-flight release hides a slot from reservation only once it has marked
the slot down: if every slot named `nm` has `isUp = false`, `reserveBrowser`
never returns a browser named `nm`. -/
theorem reserveBrowser_skips_downed_slot (leaseTime now : Int) (st : MState) (nm : String)
    (h : ∀ b0 ∈ bvalues st.browsers, b0.name = nm → b0.isUp = false) :
    ∀ b, (reserveBrowser leaseTime now st).1 = some b → b.name ≠ nm := by
  intro b hb
  unfold reserveBrowser at hb
  cases hfind : (bvalues st.browsers).find? (fun x => x.isUp && x.leaseTime == -1) with
  | none => rw [hfind] at hb; simp at hb
  | some b0 =>
    rw [hfind] at hb
    simp only [Option.some.injEq] at hb
    have hmem := List.mem_of_find?_eq_some hfind
    have hpred := List.find?_some hfind
    simp only [Bool.and_eq_true, beq_iff_eq] at hpred
    intro hname
    have hbn : b.name = b0.name := by rw [← hb]
    have hdown : b0.isUp = false := h b0 hmem (hbn ▸ hname)
    rw [hpred.1] at hdown
    exact absurd hdown (by decide)

/-- C7 witness: with slot `bx-10222` down and slot `bx-10223` Ready, the
reservation result is a slot whose name is not `bx-10222`. -/
theorem reserveBrowser_skips_downed_slot_witness :
    ({ sampleBrowser with name := "bx-10223", leaseTime := 5, lastUsed := 100 } : Browser).name ≠ "bx-10222" :=
  reserveBrowser_skips_downed_slot 5 100
    (MState.mk [("bx-10222", { sampleBrowser with isUp := false }),
                ("bx-10223", { sampleBrowser with name := "bx-10223" })] [] [] false)
    "bx-10222" (by decide)
    { sampleBrowser with name := "bx-10223", leaseTime := 5, lastUsed := 100 } (by decide)

/-! ## C9 — `updateBrowser` and the slot's identity fields -/

/-- C9 counterexample: `updateBrowser` is a plain spread, so an update that
contains `index` does change it: starting from index `0`, the stored record
ends with index `99`. -/
theorem updateBrowser_changes_index_cex :
    blookup "bx-10222" (updateBrowser "bx-10222" { index := some 99 }
      (MState.mk [("bx-10222", sampleBrowser)] [] [] false)).browsers =
      some { sampleBrowser with index := 99 } ∧ sampleBrowser.index = 0 := by
  exact ⟨by decide, rfl⟩

/-- C9 (amended): for updates that do not themselves contain the `name`,
`index` or `ports` keys, `updateBrowser` preserves those three fields
(the code offers no protection beyond what the caller omits). -/
theorem updateBrowser_preserves_identity (nm : String) (u : BrowserUpdate)
    (st : MState) (b0 : Browser)
    (hb : blookup nm st.browsers = some b0)
    (hn : u.name = none) (hi : u.index = none) (hp : u.ports = none) :
    blookup nm (updateBrowser nm u st).browsers = some (applyUpdate u b0) ∧
      (applyUpdate u b0).name = b0.name ∧ (applyUpdate u b0).index = b0.index ∧
      (applyUpdate u b0).ports = b0.ports := by
  refine ⟨?_, ?_, ?_, ?_⟩
  · unfold updateBrowser
    rw [hb]
    simp only [Option.isSome_some, if_true]
    rw [blookup_bupdate_self, hb]
    rfl
  · simp [applyUpdate, hn]
  · simp [applyUpdate, hi]
  · simp [applyUpdate, hp]

/-- C9 witness: an update touching only `isUp` leaves name, index and ports
of the concrete slot unchanged. -/
theorem updateBrowser_preserves_identity_witness :
    blookup "bx-10222" (updateBrowser "bx-10222" { isUp := some false }
      (MState.mk [("bx-10222", sampleBrowser)] [] [] false)).browsers =
      some (applyUpdate { isUp := some false } sampleBrowser) ∧
    (applyUpdate { isUp := some false } sampleBrowser).name = sampleBrowser.name ∧
    (applyUpdate { isUp := some false } sampleBrowser).index = sampleBrowser.index ∧
    (applyUpdate { isUp := some false } sampleBrowser).ports = sampleBrowser.ports :=
  updateBrowser_preserves_identity "bx-10222" { isUp := some false }
    (MState.mk [("bx-10222", sampleBrowser)] [] [] false) sampleBrowser
    (by decide) rfl rfl rfl

/-! ## C10 — release on an unknown name is a total no-op -/

/-- C10: when the name is not in the table, `killBrowser(name, tryNum)`
returns at the existence guard for every retry count and mode: the state
(slot table, timers, sockets, is-killing flag) is returned untouched, no
container-runtime command is issued, and nothing is thrown. -/
theorem killBrowser_unknown_noop (cfg : Config) (manageOnly : Bool)
    (oracle : Nat → DockerRes) (now : Int) (nm : String) (st : MState) (tryNum : Nat)
    (h : blookup nm st.browsers = none) :
    killBrowser cfg manageOnly oracle now nm st tryNum = ⟨st, .missing, []⟩ := by
  unfold killBrowser
  cases cfg.maxRetries + 1 - tryNum with
  | zero => simp [killAux, h]
  | succ n => simp [killAux, h]

/-- C10 witness: a concrete kill of an absent name returns the state
unchanged with an empty command trace. -/
theorem killBrowser_unknown_noop_witness :
    killBrowser sampleConfig false (fun _ => DockerRes.ok) 0 "ghost"
      (MState.mk [("bx-10222", sampleBrowser)] [] [] false) 0 =
      ⟨MState.mk [("bx-10222", sampleBrowser)] [] [] false, .missing, []⟩ :=
  killBrowser_unknown_noop sampleConfig false (fun _ => DockerRes.ok) 0 "ghost"
    (MState.mk [("bx-10222", sampleBrowser)] [] [] false) 0 (by decide)


/-! ## C8 — `node:setState` frame -/

/-- The record stored by the `node:setState` branch: old record with
`labels.id` and `labels.ip` upserted and `isUp := true`; every other field
is carried over. -/
def setStateSlot (id ip : String) (x : Browser) : Browser :=
  { x with labels := upsertLabel "ip" ip (upsertLabel "id" id x.labels), isUp := true }

/-- C8: processing `node:setState {id, ip}` for a present slot stores
exactly `setStateSlot id ip b0` — the old record with the two labels
upserted and `isUp := true`, all other fields (session fields, lease,
times, ports, index, name) unchanged — and leaves every other slot, the
timers, the sockets and the is-killing flag untouched. -/
theorem nodeSetState_frame (st : MState) (nm id ip : String) (b0 : Browser)
    (hb : blookup nm st.browsers = some b0) :
    blookup nm ((handleContainerEvent nm (.setState id ip) st).1).browsers =
      some (setStateSlot id ip b0) ∧
    lookupLabel "id" (setStateSlot id ip b0).labels = some id ∧
    lookupLabel "ip" (setStateSlot id ip b0).labels = some ip ∧
    (setStateSlot id ip b0).isUp = true ∧
    (setStateSlot id ip b0).sessionID = b0.sessionID ∧
    (setStateSlot id ip b0).clientID = b0.clientID ∧
    (setStateSlot id ip b0).webhook = b0.webhook ∧
    (setStateSlot id ip b0).fingerprintID = b0.fingerprintID ∧
    (setStateSlot id ip b0).reportKey = b0.reportKey ∧
    (setStateSlot id ip b0).sessionUUID = b0.sessionUUID ∧
    (setStateSlot id ip b0).leaseTime = b0.leaseTime ∧
    (setStateSlot id ip b0).lastUsed = b0.lastUsed ∧
    (setStateSlot id ip b0).createdAt = b0.createdAt ∧
    (setStateSlot id ip b0).ports = b0.ports ∧
    (setStateSlot id ip b0).index = b0.index ∧
    (setStateSlot id ip b0).name = b0.name ∧
    (∀ k, k ≠ nm → blookup k ((handleContainerEvent nm (.setState id ip) st).1).browsers =
      blookup k st.browsers) ∧
    ((handleContainerEvent nm (.setState id ip) st).1).timers = st.timers ∧
    ((handleContainerEvent nm (.setState id ip) st).1).sockets = st.sockets ∧
    ((handleContainerEvent nm (.setState id ip) st).1).isKilling = st.isKilling := by
  have hH : (handleContainerEvent nm (.setState id ip) st).1 =
      { st with browsers := bupdate nm (setStateSlot id ip) st.browsers } := by
    unfold handleContainerEvent setStateSlot
    rw [hb]
  rw [hH]
  refine ⟨?_, ?_, ?_, rfl, rfl, rfl, rfl, rfl, rfl, rfl, rfl, rfl, rfl, rfl, rfl, rfl,
    ?_, rfl, rfl, rfl⟩
  · rw [blookup_bupdate_self, hb]
    rfl
  · show lookupLabel "id" (upsertLabel "ip" ip (upsertLabel "id" id b0.labels)) = some id
    rw [lookupLabel_upsert_ne "ip" "id" ip _ (by decide), lookupLabel_upsert_self]
  · show lookupLabel "ip" (upsertLabel "ip" ip (upsertLabel "id" id b0.labels)) = some ip
    rw [lookupLabel_upsert_self]
  · intro k hk
    exact blookup_bupdate_ne nm k _ st.browsers hk

/-- The concrete pre-state slot used by the C8 witness: down, leased,
carrying session data and one label. -/
def c8Slot : Browser :=
  { sampleBrowser with
    isUp := false, sessionID := "s", clientID := "c",
    leaseTime := 7, labels := [("x", "y")] }

/-- C8 witness: on the concrete slot, the stored record after
`node:setState {A, 10.0.0.1}` is exactly the old record with the two labels
upserted and `isUp := true`. -/
theorem nodeSetState_frame_witness :
    blookup "bx-10222" ((handleContainerEvent "bx-10222" (.setState "A" "10.0.0.1")
      (MState.mk [("bx-10222", c8Slot)] ["bx-10222"] ["bx-10222"] false)).1).browsers =
      some (setStateSlot "A" "10.0.0.1" c8Slot) :=
  (nodeSetState_frame (MState.mk [("bx-10222", c8Slot)] ["bx-10222"] ["bx-10222"] false)
    "bx-10222" "A" "10.0.0.1" c8Slot (by decide)).1

/-! ## C5 — webhook dispatch on `node:deleted` -/

/-- The C5 slot: non-empty webhook, reportKey and sessionUUID but empty
sessionID and clientID. -/
def c5Slot : Browser :=
  { sampleBrowser with
    webhook := "http://h/x", reportKey := "k", sessionUUID := "u" }

/-- C5 counterexample: the claim's "if" direction fails — a slot whose
webhook, reportKey and sessionUUID are all non-empty but whose sessionID
(and clientID) is empty emits no POST on `node:deleted`, because the
handler's outer guard also requires truthy `sessionID && clientID`. -/
theorem nodeDeleted_requires_session_cex :
    (handleContainerEvent "bx-10222" (.deleted true "m" "S")
      (MState.mk [("bx-10222", c5Slot)] [] [] false)).2 = none ∧
    c5Slot.webhook ≠ "" ∧ c5Slot.reportKey ≠ "" ∧ c5Slot.sessionUUID ≠ "" := by
  exact ⟨by decide, by decide, by decide, by decide⟩

/-- C5 (amended): on `node:deleted` for a present slot, a POST is emitted
iff `sessionID`, `clientID`, `webhook`, `reportKey` and `sessionUUID` are
all non-empty; any emitted body is exactly
`{clientID, sessionUUID, sessionData, isError, error := message, reportKey}`
where `sessionData` is the event payload's value when `fingerprintID` is
non-empty and `""` otherwise. -/
theorem nodeDeleted_webhook_iff (st : MState) (nm : String) (b : Browser)
    (isError : Bool) (message sessionData : String)
    (hb : blookup nm st.browsers = some b) :
    ((handleContainerEvent nm (.deleted isError message sessionData) st).2.isSome = true ↔
      (b.sessionID ≠ "" ∧ b.clientID ≠ "" ∧ b.webhook ≠ "" ∧ b.reportKey ≠ "" ∧ b.sessionUUID ≠ "")) ∧
    (∀ p, (handleContainerEvent nm (.deleted isError message sessionData) st).2 = some p →
      p = { clientID := b.clientID, sessionUUID := b.sessionUUID,
            sessionData := if b.fingerprintID ≠ "" then sessionData else "",
            isError := isError, error := message, reportKey := b.reportKey }) := by
  have hH : (handleContainerEvent nm (.deleted isError message sessionData) st).2 =
      nodeDeletedPost b isError message sessionData := by
    unfold handleContainerEvent
    rw [hb]
  rw [hH]
  unfold nodeDeletedPost
  by_cases h1 : b.sessionID ≠ "" ∧ b.clientID ≠ ""
  · by_cases h2 : b.webhook ≠ "" ∧ b.reportKey ≠ "" ∧ b.sessionUUID ≠ ""
    · rw [if_pos h1]
      simp only [if_pos h2]
      constructor
      · simp only [Option.isSome_some, true_iff]
        exact ⟨h1.1, h1.2, h2.1, h2.2.1, h2.2.2⟩
      · intro p hp
        simp only [Option.some.injEq] at hp
        exact hp.symm
    · rw [if_pos h1]
      simp only [if_neg h2]
      constructor
      · constructor
        · intro h
          simp at h
        · intro hc
          exact absurd ⟨hc.2.2.1, hc.2.2.2.1, hc.2.2.2.2⟩ h2
      · intro p hp
        exact absurd hp (by simp)
  · rw [if_neg h1]
    constructor
    · constructor
      · intro h
        simp at h
      · intro hc
        exact absurd ⟨hc.1, hc.2.1⟩ h1
    · intro p hp
      exact absurd hp (by simp)

/-- The C5 witness slot: every eligibility field non-empty, no
fingerprint. -/
def c5wSlot : Browser :=
  { sampleBrowser with
    sessionID := "sid", clientID := "cid", webhook := "http://h/x",
    reportKey := "k", sessionUUID := "u" }

/-- C5 witness: with all five fields non-empty a POST is emitted, and with
an empty `fingerprintID` its `sessionData` is `""` even though the event
payload carried `"S"`. -/
theorem nodeDeleted_webhook_iff_witness :
    (handleContainerEvent "bx-10222" (.deleted true "m" "S")
      (MState.mk [("bx-10222", c5wSlot)] [] [] false)).2.isSome = true :=
  ((nodeDeleted_webhook_iff (MState.mk [("bx-10222", c5wSlot)] [] [] false)
    "bx-10222" c5wSlot true "m" "S" (by decide)).1).mpr
    ⟨by decide, by decide, by decide, by decide, by decide⟩

/-! ## C6 — shutdown suppresses re-creation -/

/-- `killBrowser` (at any fuel/tryNum) never touches the `_isKilling`
flag. -/
theorem killAux_isKilling (m : Nat) (mo : Bool) (o : Nat → DockerRes)
    (now : Int) (nm : String) :
    ∀ fuel tryNum st, ((killAux m mo o now nm fuel tryNum st).st).isKilling = st.isKilling := by
  intro fuel
  induction fuel with
  | zero =>
    intro tryNum st
    cases h : blookup nm st.browsers with
    | none => simp [killAux, h]
    | some b => simp [killAux, h]
  | succ n ih =>
    intro tryNum st
    cases h : blookup nm st.browsers with
    | none => simp [killAux, h]
    | some b =>
      simp only [killAux, h]
      cases o tryNum with
      | ok =>
        cases htn : (tryNum == 0) <;>
          cases mo <;>
            simp [htn, connectSock, resetTimeout]
      | noSuch =>
        cases htn : (tryNum == 0) <;> simp [htn, resetTimeout]
      | err =>
        by_cases ht : tryNum < m
        · simp only [if_pos ht]
          cases htn : (tryNum == 0) <;> simp [htn, ih, resetTimeout]
        · simp only [if_neg ht]
          cases htn : (tryNum == 0) <;> simp [htn, resetTimeout]

/-- The key loop of `killAllExisting` never touches `_isKilling`. -/
theorem killList_isKilling (cfg : Config) (mo : Bool) (o : String → Nat → DockerRes)
    (now : Int) :
    ∀ ns st, (killList cfg mo o now ns st).isKilling = st.isKilling := by
  intro ns
  induction ns with
  | nil => intro st; rfl
  | cons n rest ih =>
    intro st
    simp only [killList, ih]
    exact killAux_isKilling cfg.maxRetries mo (o n) now n _ 0 st

/-- `killAllExisting` leaves the `_isKilling` flag set. -/
theorem killAllExisting_isKilling (cfg : Config) (mo : Bool)
    (o : String → Nat → DockerRes) (now : Int) (st : MState) :
    (killAllExisting cfg mo o now st).isKilling = true := by
  unfold killAllExisting
  rw [killList_isKilling]

/-- Once `_isKilling` is set, no disconnect in a sequence schedules a
re-creation, and the flag stays set. -/
theorem disconnectSeq_no_recreate (mo : Bool) :
    ∀ evs st, st.isKilling = true →
      (disconnectSeq mo evs st).2 = false ∧ (disconnectSeq mo evs st).1.isKilling = true := by
  intro evs
  induction evs with
  | nil => intro st h; exact ⟨rfl, h⟩
  | cons n rest ih =>
    intro st h
    have hon : (onDisconnect mo n st).1.isKilling = st.isKilling := rfl
    have hflag : (onDisconnect mo n st).2 = false := by
      simp [onDisconnect, h]
    have hrest := ih (onDisconnect mo n st).1 (by rw [hon, h])
    constructor
    · simp only [disconnectSeq, hflag, hrest.1, Bool.or_self]
    · simp only [disconnectSeq, hrest.2]

/-- C6: after `killAllExisting` (shutdown) has set the global is-killing
flag, no subsequently processed sequence of agent-disconnect events ever
schedules an `initContainer` re-creation: the disconnect handler's
scheduling condition `!isKilling && !manageOnly` is false at every event. -/
theorem shutdown_suppresses_recreation (cfg : Config) (manageOnly : Bool)
    (oracle : String → Nat → DockerRes) (now : Int) (st : MState) (evs : List String) :
    (disconnectSeq manageOnly evs (killAllExisting cfg manageOnly oracle now st)).2 = false :=
  (disconnectSeq_no_recreate manageOnly evs _
    (killAllExisting_isKilling cfg manageOnly oracle now st)).1


/-! ## C3 — release postcondition -/

/-- All session fields, labels, lease and lastUsed cleared — the fields the
release postcondition is about. -/
def sessionCleared (b : Browser) : Prop :=
  b.sessionID = "" ∧ b.clientID = "" ∧ b.webhook = "" ∧ b.fingerprintID = "" ∧
  b.reportKey = "" ∧ b.sessionUUID = "" ∧ b.labels = [] ∧ b.leaseTime = -1 ∧
  b.lastUsed = -1

/-- The slot record `killBrowser` writes on `tryNum = 0` before issuing the
stop/restart command. -/
def markRemoving (st : MState) (nm : String) : MState :=
  { st with browsers := bupdate nm (fun b => { b with isRemoving := true }) st.browsers }

/-- Whenever `killBrowser` ends through the reset block (`cleaned`), the
slot's session fields are cleared and `createdAt` is the pre-call value in
MANAGE_ONLY mode and `Date.now()` otherwise. -/
theorem killAux_cleaned_clears (m : Nat) (mo : Bool) (o : Nat → DockerRes)
    (now : Int) (nm : String) :
    ∀ fuel tryNum st b0, blookup nm st.browsers = some b0 →
      (killAux m mo o now nm fuel tryNum st).outcome = .cleaned →
      ∃ b', blookup nm ((killAux m mo o now nm fuel tryNum st).st).browsers = some b' ∧
        sessionCleared b' ∧
        b'.createdAt = (if mo = true then b0.createdAt else now) := by
  intro fuel
  induction fuel with
  | zero =>
    intro tryNum st b0 hb hout
    have hz : (killAux m mo o now nm 0 tryNum st).outcome = KOutcome.threw := by
      simp [killAux, hb]
    rw [hz] at hout
    exact absurd hout (by decide)
  | succ n ih =>
    intro tryNum st b0 hb hout
    cases ho : o tryNum with
    | ok =>
      cases htn : (tryNum == 0) with
      | true =>
        cases mo with
        | true =>
          simp only [killAux, hb, ho, htn]
          simp only [if_true, connectSock, resetTimeout]
          rw [blookup_bupdate_self, blookup_bupdate_self, hb]
          exact ⟨_, rfl, by simp [clearSlotManage, sessionCleared], rfl⟩
        | false =>
          simp only [killAux, hb, ho, htn]
          simp only [if_true, Bool.false_eq_true, if_false, resetTimeout]
          rw [blookup_bupdate_self, blookup_bupdate_self, hb]
          exact ⟨_, rfl, by simp [clearSlotFull, sessionCleared], rfl⟩
      | false =>
        cases mo with
        | true =>
          simp only [killAux, hb, ho, htn]
          simp only [Bool.false_eq_true, if_false, if_true, connectSock, resetTimeout]
          rw [blookup_bupdate_self, hb]
          exact ⟨_, rfl, by simp [clearSlotManage, sessionCleared], rfl⟩
        | false =>
          simp only [killAux, hb, ho, htn]
          simp only [Bool.false_eq_true, if_false, resetTimeout]
          rw [blookup_bupdate_self, hb]
          exact ⟨_, rfl, by simp [clearSlotFull, sessionCleared], rfl⟩
    | noSuch =>
      have hno : (killAux m mo o now nm (n + 1) tryNum st).outcome = KOutcome.alreadyGone := by
        cases htn : (tryNum == 0) <;> simp [killAux, hb, ho, htn]
      rw [hno] at hout
      exact absurd hout (by decide)
    | err =>
      by_cases ht : tryNum < m
      · cases htn : (tryNum == 0) with
        | true =>
          have houtEq : (killAux m mo o now nm (n + 1) tryNum st).outcome =
              (killAux m mo o now nm n (tryNum + 1) (resetTimeout nm (markRemoving st nm))).outcome := by
            simp [killAux, hb, ho, htn, ht, markRemoving]
          have hstEq : (killAux m mo o now nm (n + 1) tryNum st).st =
              (killAux m mo o now nm n (tryNum + 1) (resetTimeout nm (markRemoving st nm))).st := by
            simp [killAux, hb, ho, htn, ht, markRemoving]
          rw [houtEq] at hout
          rw [hstEq]
          have hb2 : blookup nm (resetTimeout nm (markRemoving st nm)).browsers =
              some { b0 with isRemoving := true } := by
            simp only [resetTimeout, markRemoving]
            rw [blookup_bupdate_self, hb]
            rfl
          exact ih (tryNum + 1) (resetTimeout nm (markRemoving st nm))
            { b0 with isRemoving := true } hb2 hout
        | false =>
          have houtEq : (killAux m mo o now nm (n + 1) tryNum st).outcome =
              (killAux m mo o now nm n (tryNum + 1) (resetTimeout nm st)).outcome := by
            simp [killAux, hb, ho, htn, ht]
          have hstEq : (killAux m mo o now nm (n + 1) tryNum st).st =
              (killAux m mo o now nm n (tryNum + 1) (resetTimeout nm st)).st := by
            simp [killAux, hb, ho, htn, ht]
          rw [houtEq] at hout
          rw [hstEq]
          exact ih (tryNum + 1) _ _ (by exact hb) hout
      · have hth : (killAux m mo o now nm (n + 1) tryNum st).outcome = KOutcome.threw := by
          cases htn : (tryNum == 0) <;> simp [killAux, hb, ho, htn, ht]
        rw [hth] at hout
        exact absurd hout (by decide)

/-- The C3/C2 concrete slot: populated session, label, lease and times. -/
def leasedSlot : Browser :=
  { sampleBrowser with
    sessionID := "sid", clientID := "cid", webhook := "http://h/x",
    fingerprintID := "fp", reportKey := "rk", sessionUUID := "su",
    labels := [("id", "A")], leaseTime := 9, lastUsed := 5, createdAt := 42 }

/-- C3 counterexample: on the `no such container` path the call completes
without raising (the claim counts it as success) but clears nothing: the
slot keeps its sessionID (and every other session field) and is left with
`isRemoving = true`. -/
theorem killBrowser_noSuch_skips_cleanup_cex :
    (killBrowser sampleConfig false (fun _ => DockerRes.noSuch) 77 "bx-10222"
      (MState.mk [("bx-10222", leasedSlot)] [] [] false) 0).outcome = KOutcome.alreadyGone ∧
    blookup "bx-10222" ((killBrowser sampleConfig false (fun _ => DockerRes.noSuch) 77 "bx-10222"
      (MState.mk [("bx-10222", leasedSlot)] [] [] false) 0).st).browsers =
      some { leasedSlot with isRemoving := true } ∧
    ({ leasedSlot with isRemoving := true } : Browser).sessionID = "sid" := by
  exact ⟨by decide, by decide, rfl⟩

/-- C3 (amended): whenever `killBrowser(name, 0)` completes through its
reset block (outcome `cleaned` — the path on which the stop/restart command
succeeded), the slot's session fields, labels, lease and lastUsed are all
cleared, and `createdAt` is preserved in MANAGE_ONLY mode (refreshed to
`Date.now()` in full-lifecycle mode).  On the `no such container` early
return the call also completes without raising but clears nothing. -/
theorem killBrowser_cleaned_postcondition (cfg : Config) (manageOnly : Bool)
    (oracle : Nat → DockerRes) (now : Int) (nm : String) (st : MState) (b0 : Browser)
    (hb : blookup nm st.browsers = some b0)
    (hout : (killBrowser cfg manageOnly oracle now nm st 0).outcome = .cleaned) :
    ∃ b', blookup nm ((killBrowser cfg manageOnly oracle now nm st 0).st).browsers = some b' ∧
      sessionCleared b' ∧
      b'.createdAt = (if manageOnly = true then b0.createdAt else now) :=
  killAux_cleaned_clears cfg.maxRetries manageOnly oracle now nm
    (cfg.maxRetries + 1 - 0) 0 st b0 hb hout

/-- C3 witness: a concrete MANAGE_ONLY release whose restart succeeds clears
the session and keeps `createdAt = 42`. -/
theorem killBrowser_cleaned_postcondition_witness :
    ∃ b', blookup "bx-10222" ((killBrowser sampleConfig true (fun _ => DockerRes.ok) 77 "bx-10222"
      (MState.mk [("bx-10222", leasedSlot)] ["bx-10222"] ["bx-10222"] false) 0).st).browsers = some b' ∧
      sessionCleared b' ∧
      b'.createdAt = (if true = true then leasedSlot.createdAt else 77) :=
  killBrowser_cleaned_postcondition sampleConfig true (fun _ => DockerRes.ok) 77 "bx-10222"
    (MState.mk [("bx-10222", leasedSlot)] ["bx-10222"] ["bx-10222"] false) leasedSlot
    (by decide) (by decide)

/-! ## C2 — is release idempotent? -/

theorem removeName_of_not_mem (n : String) (l : List String) (h : n ∉ l) :
    removeName n l = l := by
  unfold removeName
  rw [List.filter_eq_self]
  intro a ha
  simp only [ne_eq, decide_eq_true_eq]
  exact fun e => h (e ▸ ha)

theorem not_mem_removeName (n : String) (l : List String) : n ∉ removeName n l := by
  unfold removeName
  intro h
  have := List.of_mem_filter h
  simp at this

/-- A cleared slot is a fixed point of the full-lifecycle reset, up to
`isRemoving` and `createdAt`. -/
theorem clearSlotFull_of_cleared (now : Int) (b : Browser)
    (hc : sessionCleared b) (hup : b.isUp = false) :
    clearSlotFull now b = { b with isRemoving := false, createdAt := now } := by
  obtain ⟨h1, h2, h3, h4, h5, h6, h7, h8, h9⟩ := hc
  simp [clearSlotFull, Browser.mk.injEq, h1, h2, h3, h4, h5, h6, h7, h8, h9, hup]

/-- Second-release lemma (full-lifecycle mode): starting from a state whose
slot `nm` is already cleared (`sessionCleared`, down) with no armed timer
and no socket for `nm`, any `killBrowser` run leaves the timers, sockets,
is-killing flag and every other slot untouched, and changes at most the
slot's `isRemoving` flag and `createdAt` stamp. -/
theorem killAux_second_release (m : Nat) (o : Nat → DockerRes) (now : Int) (nm : String) :
    ∀ fuel tryNum st b, blookup nm st.browsers = some b →
      sessionCleared b → b.isUp = false →
      nm ∉ st.timers → nm ∉ st.sockets →
      ((killAux m false o now nm fuel tryNum st).st).timers = st.timers ∧
      ((killAux m false o now nm fuel tryNum st).st).sockets = st.sockets ∧
      ((killAux m false o now nm fuel tryNum st).st).isKilling = st.isKilling ∧
      (∀ k, k ≠ nm →
        blookup k ((killAux m false o now nm fuel tryNum st).st).browsers = blookup k st.browsers) ∧
      (∃ b', blookup nm ((killAux m false o now nm fuel tryNum st).st).browsers = some b' ∧
        b' = { b with isRemoving := b'.isRemoving, createdAt := b'.createdAt }) := by
  intro fuel
  induction fuel with
  | zero =>
    intro tryNum st b hb hc hup hnt hns
    have hz : killAux m false o now nm 0 tryNum st = ⟨st, KOutcome.threw, []⟩ := by
      simp [killAux, hb]
    rw [hz]
    exact ⟨rfl, rfl, rfl, fun k _ => rfl, ⟨b, hb, rfl⟩⟩
  | succ n ih =>
    intro tryNum st b hb hc hup hnt hns
    cases ho : o tryNum with
    | ok =>
      cases htn : (tryNum == 0) with
      | true =>
        have hres : killAux m false o now nm (n + 1) tryNum st =
            ⟨⟨bupdate nm (clearSlotFull now)
                (bupdate nm (fun x => { x with isRemoving := true }) st.browsers),
              removeName nm st.sockets, removeName nm st.timers, st.isKilling⟩,
             KOutcome.cleaned, ["stop " ++ nm]⟩ := by
          simp [killAux, hb, ho, htn, resetTimeout]
        rw [hres]
        refine ⟨removeName_of_not_mem nm st.timers hnt,
                removeName_of_not_mem nm st.sockets hns, rfl, ?_, ?_⟩
        · intro k hk
          rw [blookup_bupdate_ne nm k _ _ hk, blookup_bupdate_ne nm k _ _ hk]
        · refine ⟨clearSlotFull now b, ?_, ?_⟩
          · rw [blookup_bupdate_self, blookup_bupdate_self, hb]
            rfl
          · rw [clearSlotFull_of_cleared now b hc hup]
      | false =>
        have hres : killAux m false o now nm (n + 1) tryNum st =
            ⟨⟨bupdate nm (clearSlotFull now) st.browsers,
              removeName nm st.sockets, removeName nm st.timers, st.isKilling⟩,
             KOutcome.cleaned, ["stop " ++ nm]⟩ := by
          simp [killAux, hb, ho, htn, resetTimeout]
        rw [hres]
        refine ⟨removeName_of_not_mem nm st.timers hnt,
                removeName_of_not_mem nm st.sockets hns, rfl, ?_, ?_⟩
        · intro k hk
          rw [blookup_bupdate_ne nm k _ _ hk]
        · refine ⟨clearSlotFull now b, ?_, ?_⟩
          · rw [blookup_bupdate_self, hb]
            rfl
          · rw [clearSlotFull_of_cleared now b hc hup]
    | noSuch =>
      cases htn : (tryNum == 0) with
      | true =>
        have hres : killAux m false o now nm (n + 1) tryNum st =
            ⟨⟨bupdate nm (fun x => { x with isRemoving := true }) st.browsers,
              st.sockets, removeName nm st.timers, st.isKilling⟩,
             KOutcome.alreadyGone, ["stop " ++ nm]⟩ := by
          simp [killAux, hb, ho, htn, resetTimeout]
        rw [hres]
        refine ⟨removeName_of_not_mem nm st.timers hnt, rfl, rfl, ?_, ?_⟩
        · intro k hk
          rw [blookup_bupdate_ne nm k _ _ hk]
        · refine ⟨{ b with isRemoving := true }, ?_, rfl⟩
          rw [blookup_bupdate_self, hb]
          rfl
      | false =>
        have hres : killAux m false o now nm (n + 1) tryNum st =
            ⟨⟨st.browsers, st.sockets, removeName nm st.timers, st.isKilling⟩,
             KOutcome.alreadyGone, ["stop " ++ nm]⟩ := by
          simp [killAux, hb, ho, htn, resetTimeout]
        rw [hres]
        exact ⟨removeName_of_not_mem nm st.timers hnt, rfl, rfl, fun k _ => rfl, ⟨b, hb, rfl⟩⟩
    | err =>
      by_cases ht : tryNum < m
      · cases htn : (tryNum == 0) with
        | true =>
          have hstEq : (killAux m false o now nm (n + 1) tryNum st).st =
              (killAux m false o now nm n (tryNum + 1)
                ⟨bupdate nm (fun x => { x with isRemoving := true }) st.browsers,
                 st.sockets, removeName nm st.timers, st.isKilling⟩).st := by
            simp [killAux, hb, ho, htn, ht, resetTimeout]
          have hb2 : blookup nm (MState.mk
              (bupdate nm (fun x => { x with isRemoving := true }) st.browsers)
              st.sockets (removeName nm st.timers) st.isKilling).browsers =
              some { b with isRemoving := true } := by
            simp only []
            rw [blookup_bupdate_self, hb]
            rfl
          have hIH := ih (tryNum + 1)
            ⟨bupdate nm (fun x => { x with isRemoving := true }) st.browsers,
             st.sockets, removeName nm st.timers, st.isKilling⟩
            { b with isRemoving := true } hb2 hc hup
            (not_mem_removeName nm st.timers) hns
          rw [hstEq]
          obtain ⟨t1, t2, t3, t4, b', hb', heq⟩ := hIH
          refine ⟨?_, t2, t3, ?_, ⟨b', hb', heq⟩⟩
          · rw [t1]
            exact removeName_of_not_mem nm st.timers hnt
          · intro k hk
            rw [t4 k hk]
            exact blookup_bupdate_ne nm k _ _ hk
        | false =>
          have hstEq : (killAux m false o now nm (n + 1) tryNum st).st =
              (killAux m false o now nm n (tryNum + 1)
                ⟨st.browsers, st.sockets, removeName nm st.timers, st.isKilling⟩).st := by
            simp [killAux, hb, ho, htn, ht, resetTimeout]
          have hIH := ih (tryNum + 1)
            ⟨st.browsers, st.sockets, removeName nm st.timers, st.isKilling⟩
            b hb hc hup (not_mem_removeName nm st.timers) hns
          rw [hstEq]
          obtain ⟨t1, t2, t3, t4, b', hb', heq⟩ := hIH
          refine ⟨?_, t2, t3, t4, ⟨b', hb', heq⟩⟩
          rw [t1]
          exact removeName_of_not_mem nm st.timers hnt
      · cases htn : (tryNum == 0) with
        | true =>
          have hres : killAux m false o now nm (n + 1) tryNum st =
              ⟨⟨bupdate nm (fun x => { x with isRemoving := true }) st.browsers,
                st.sockets, removeName nm st.timers, st.isKilling⟩,
               KOutcome.threw, ["stop " ++ nm]⟩ := by
            simp [killAux, hb, ho, htn, ht, resetTimeout]
          rw [hres]
          refine ⟨removeName_of_not_mem nm st.timers hnt, rfl, rfl, ?_, ?_⟩
          · intro k hk
            rw [blookup_bupdate_ne nm k _ _ hk]
          · refine ⟨{ b with isRemoving := true }, ?_, rfl⟩
            rw [blookup_bupdate_self, hb]
            rfl
        | false =>
          have hres : killAux m false o now nm (n + 1) tryNum st =
              ⟨⟨st.browsers, st.sockets, removeName nm st.timers, st.isKilling⟩,
               KOutcome.threw, ["stop " ++ nm]⟩ := by
            simp [killAux, hb, ho, htn, ht, resetTimeout]
          rw [hres]
          exact ⟨removeName_of_not_mem nm st.timers hnt, rfl, rfl, fun k _ => rfl, ⟨b, hb, rfl⟩⟩

/-- The state a full-lifecycle `killBrowser(name, 0)` leaves when its first
`stop` succeeds: slot marked then reset, socket and timer gone. -/
theorem killBrowser_first_ok (cfg : Config) (o : Nat → DockerRes) (now : Int)
    (nm : String) (st : MState) (b0 : Browser)
    (hb : blookup nm st.browsers = some b0) (h0 : o 0 = DockerRes.ok) :
    (killBrowser cfg false o now nm st 0).st =
      ⟨bupdate nm (clearSlotFull now)
        (bupdate nm (fun x => { x with isRemoving := true }) st.browsers),
       removeName nm st.sockets, removeName nm st.timers, st.isKilling⟩ := by
  unfold killBrowser
  simp [killAux, hb, h0, resetTimeout]

/-- C2 counterexample: with the realistic oracle pair — the first stop
succeeds, the second reports `no such container` (the `--rm` container is
already gone) — the state after two `killBrowser(name, 0)` calls differs
from the state after one: the second call leaves `isRemoving = true`. -/
theorem killBrowser_not_idempotent_cex :
    (killBrowser sampleConfig false (fun _ => DockerRes.noSuch) 7 "bx-10222"
      ((killBrowser sampleConfig false (fun _ => DockerRes.ok) 7 "bx-10222"
        (MState.mk [("bx-10222", leasedSlot)] ["bx-10222"] ["bx-10222"] false) 0).st) 0).st ≠
    ((killBrowser sampleConfig false (fun _ => DockerRes.ok) 7 "bx-10222"
        (MState.mk [("bx-10222", leasedSlot)] ["bx-10222"] ["bx-10222"] false) 0).st) := by
  decide

/-- C2 (amended): in full-lifecycle mode, if the first `killBrowser(name,0)`
completed through its reset block (its first stop succeeded), a second
`killBrowser(name,0)` — whatever its docker outcomes — is a no-op up to the
slot's `isRemoving` flag and `createdAt` stamp: timers, sockets, the
is-killing flag and every other slot are exactly as after the first call,
and the slot differs at most in `isRemoving` and `createdAt`. -/
theorem killBrowser_second_release_noop (cfg : Config) (o1 o2 : Nat → DockerRes)
    (now1 now2 : Int) (nm : String) (st : MState) (b0 : Browser)
    (hb : blookup nm st.browsers = some b0) (h1 : o1 0 = DockerRes.ok) :
    ((killBrowser cfg false o2 now2 nm (killBrowser cfg false o1 now1 nm st 0).st 0).st).timers =
      ((killBrowser cfg false o1 now1 nm st 0).st).timers ∧
    ((killBrowser cfg false o2 now2 nm (killBrowser cfg false o1 now1 nm st 0).st 0).st).sockets =
      ((killBrowser cfg false o1 now1 nm st 0).st).sockets ∧
    ((killBrowser cfg false o2 now2 nm (killBrowser cfg false o1 now1 nm st 0).st 0).st).isKilling =
      ((killBrowser cfg false o1 now1 nm st 0).st).isKilling ∧
    (∀ k, k ≠ nm →
      blookup k ((killBrowser cfg false o2 now2 nm (killBrowser cfg false o1 now1 nm st 0).st 0).st).browsers =
      blookup k ((killBrowser cfg false o1 now1 nm st 0).st).browsers) ∧
    (∃ b1 b2, blookup nm ((killBrowser cfg false o1 now1 nm st 0).st).browsers = some b1 ∧
      blookup nm ((killBrowser cfg false o2 now2 nm (killBrowser cfg false o1 now1 nm st 0).st 0).st).browsers = some b2 ∧
      b2 = { b1 with isRemoving := b2.isRemoving, createdAt := b2.createdAt }) := by
  have hr1 := killBrowser_first_ok cfg o1 now1 nm st b0 hb h1
  have hb1 : blookup nm ((killBrowser cfg false o1 now1 nm st 0).st).browsers =
      some (clearSlotFull now1 { b0 with isRemoving := true }) := by
    rw [hr1]
    simp only []
    rw [blookup_bupdate_self, blookup_bupdate_self, hb]
    rfl
  have hcl : sessionCleared (clearSlotFull now1 { b0 with isRemoving := true }) := by
    simp [clearSlotFull, sessionCleared]
  have hupf : (clearSlotFull now1 { b0 with isRemoving := true }).isUp = false := rfl
  have hnt : nm ∉ ((killBrowser cfg false o1 now1 nm st 0).st).timers := by
    rw [hr1]
    exact not_mem_removeName nm st.timers
  have hns : nm ∉ ((killBrowser cfg false o1 now1 nm st 0).st).sockets := by
    rw [hr1]
    exact not_mem_removeName nm st.sockets
  have hsec := killAux_second_release cfg.maxRetries o2 now2 nm
    (cfg.maxRetries + 1 - 0) 0 ((killBrowser cfg false o1 now1 nm st 0).st)
    (clearSlotFull now1 { b0 with isRemoving := true }) hb1 hcl hupf hnt hns
  obtain ⟨t1, t2, t3, t4, b', hb', heq⟩ := hsec
  exact ⟨t1, t2, t3, t4,
    ⟨clearSlotFull now1 { b0 with isRemoving := true }, b', hb1, hb', heq⟩⟩

/-- C2 witness: a concrete first-success/second-gone run in which the
timer sets after one and two releases coincide. -/
theorem killBrowser_second_release_noop_witness :
    ((killBrowser sampleConfig false (fun _ => DockerRes.noSuch) 8 "bx-10222"
      ((killBrowser sampleConfig false (fun _ => DockerRes.ok) 7 "bx-10222"
        (MState.mk [("bx-10222", leasedSlot)] ["bx-10222"] ["bx-10222"] false) 0).st) 0).st).timers =
    ((killBrowser sampleConfig false (fun _ => DockerRes.ok) 7 "bx-10222"
        (MState.mk [("bx-10222", leasedSlot)] ["bx-10222"] ["bx-10222"] false) 0).st).timers :=
  (killBrowser_second_release_noop sampleConfig (fun _ => DockerRes.ok)
    (fun _ => DockerRes.noSuch) 7 8 "bx-10222"
    (MState.mk [("bx-10222", leasedSlot)] ["bx-10222"] ["bx-10222"] false)
    leasedSlot (by decide) rfl).1

/-! ## C4 — init failure policy -/

/-- When every remaining attempt fails and `shouldCrash` is set, the
creation loop issues exactly the remaining `maxRetries - attempts` runs and
throws. -/
theorem runRetryAux_all_fail (maxRetries : Nat) (oracle : Nat → Bool) :
    ∀ fuel attempts, attempts + fuel = maxRetries → attempts < maxRetries →
      (∀ k, attempts ≤ k → k < maxRetries → oracle k = false) →
      runRetryAux maxRetries oracle true attempts fuel = (true, maxRetries - attempts) := by
  intro fuel
  induction fuel with
  | zero =>
    intro attempts hsum hlt _
    omega
  | succ n ih =>
    intro attempts hsum hlt hf
    have ho : oracle attempts = false := hf attempts le_rfl hlt
    simp only [runRetryAux, if_pos hlt, ho, Bool.false_eq_true, if_false]
    by_cases he : attempts + 1 = maxRetries
    · have hbe : ((attempts + 1) == maxRetries) = true := by simp [he]
      rw [hbe]
      have h2 : maxRetries - attempts = 1 := by omega
      simp [h2]
    · have hbe : ((attempts + 1) == maxRetries) = false := by simp [he]
      rw [hbe]
      simp only [Bool.false_eq_true, if_false]
      rw [ih (attempts + 1) (by omega) (by omega) (fun k hk1 hk2 => hf k (by omega) hk2)]
      have h2 : maxRetries - (attempts + 1) + 1 = maxRetries - attempts := by omega
      simp [h2]

/-- When some attempt in range succeeds, the creation loop never throws. -/
theorem runRetryAux_success (maxRetries : Nat) (oracle : Nat → Bool) (sc : Bool) :
    ∀ fuel attempts, attempts + fuel = maxRetries →
      (∃ k, attempts ≤ k ∧ k < maxRetries ∧ oracle k = true) →
      (runRetryAux maxRetries oracle sc attempts fuel).1 = false := by
  intro fuel
  induction fuel with
  | zero =>
    intro attempts hsum hex
    obtain ⟨k, hk1, hk2, _⟩ := hex
    omega
  | succ n ih =>
    intro attempts hsum hex
    obtain ⟨k, hk1, hk2, hk3⟩ := hex
    have hlt : attempts < maxRetries := lt_of_le_of_lt hk1 hk2
    simp only [runRetryAux, if_pos hlt]
    cases ho : oracle attempts with
    | true => simp [ho]
    | false =>
      simp only [ho, Bool.false_eq_true, if_false]
      have hne : attempts + 1 ≠ maxRetries := by
        intro he
        have hkeq : k = attempts := by omega
        rw [hkeq, ho] at hk3
        exact Bool.false_ne_true hk3
      have hbe : ((attempts + 1) == maxRetries) = false := by simp [hne]
      rw [hbe]
      simp only [Bool.false_eq_true, if_false]
      have hka : k ≠ attempts := by
        intro he
        rw [he, ho] at hk3
        exact Bool.false_ne_true hk3
      have hrec := ih (attempts + 1) (by omega) ⟨k, by omega, hk2, hk3⟩
      simp [hrec]

/-- `initContainer` with `shouldCrashIfFailed = true` throws exactly when
every one of its `maxRetries` attempts fails (and there is at least one). -/
theorem initContainer_crash (cfg : Config) (oracle : Nat → Bool) (name : String) (st : MState)
    (hm : 1 ≤ cfg.maxRetries) (hf : ∀ k, k < cfg.maxRetries → oracle k = false) :
    initContainer cfg oracle true name st = .error () := by
  unfold initContainer runRetry
  rw [runRetryAux_all_fail cfg.maxRetries oracle cfg.maxRetries 0 (by omega) (by omega)
    (fun k _ hk2 => hf k hk2)]
  simp

/-- `initContainer` returns normally (and opens the Agent Link) when some
attempt succeeds. -/
theorem initContainer_ok (cfg : Config) (oracle : Nat → Bool) (sc : Bool)
    (name : String) (st : MState)
    (h : ∃ k, k < cfg.maxRetries ∧ oracle k = true) :
    initContainer cfg oracle sc name st = .ok (connectSock name st) := by
  unfold initContainer runRetry
  obtain ⟨k, hk, ho⟩ := h
  rw [runRetryAux_success cfg.maxRetries oracle sc cfg.maxRetries 0 (by omega)
    ⟨k, by omega, hk, ho⟩]
  simp

/-- Inside `init`'s loop, reaching a slot whose every creation attempt
fails makes the whole loop throw (because `init` passes
`shouldCrashIfFailed = true` for every slot). -/
theorem initSlotsAux_error_at (cfg : Config) (oracle : Nat → Nat → Bool) (now : Int)
    (i : Nat) (hm : 1 ≤ cfg.maxRetries)
    (hfail : ∀ k, k < cfg.maxRetries → oracle i k = false) :
    ∀ remaining cur st, cur ≤ i → i < cur + remaining →
      (∀ j, cur ≤ j → j < i → ∃ k, k < cfg.maxRetries ∧ oracle j k = true) →
      initSlotsAux cfg oracle now cur remaining st = .error () := by
  intro remaining
  induction remaining with
  | zero =>
    intro cur st h1 h2 _
    omega
  | succ n ih =>
    intro cur st h1 h2 hj
    by_cases hc : cur = i
    · subst hc
      simp only [initSlotsAux]
      rw [initContainer_crash cfg (oracle cur) _ _ hm hfail]
    · have hlt : cur < i := lt_of_le_of_ne h1 hc
      simp only [initSlotsAux]
      rw [initContainer_ok cfg (oracle cur) true _ _ (hj cur le_rfl hlt)]
      exact ih (cur + 1) _ (by omega) (by omega) (fun j hj1 hj2 => hj j (by omega) hj2)

/-- C4 counterexample: with `N = 2`, slot 0 creating fine and slot 1
failing every attempt, `init` throws — the claim said a later slot's
exhaustion is only logged and init does not fail.  (Slot 0's
`initContainer` succeeds, so the failure is attributable to slot 1.) -/
theorem init_later_slot_failure_fatal_cex :
    initPool sampleConfig (fun i _ => i == 0) 0 (MState.mk [] [] [] false) =
      Except.error () ∧
    initContainer sampleConfig (fun _ => ((0 : Nat) == 0)) true "bx-10222"
      (MState.mk [("bx-10222", mkInitBrowser sampleConfig 0 0)] [] [] false) =
      Except.ok (connectSock "bx-10222"
        (MState.mk [("bx-10222", mkInitBrowser sampleConfig 0 0)] [] [] false)) := by
  exact ⟨rfl, rfl⟩

/-- C4 (amended): during full-lifecycle init every slot's container
creation is attempted up to `maxRetries` times (exactly `maxRetries` runs
are issued when all fail), and exhaustion of the attempts for ANY slot —
the first or a later one — makes `init` itself throw, because `init` calls
`initContainer` with `shouldCrashIfFailed = true` for every index.  (The
`killWaitTime` sleeps between attempts are real time, outside this
embedding.) -/
theorem initPool_slot_exhaustion_fatal (cfg : Config) (oracle : Nat → Nat → Bool)
    (now : Int) (st : MState) (i : Nat)
    (hi : i < cfg.numBrowsers) (hm : 1 ≤ cfg.maxRetries)
    (hearlier : ∀ j, j < i → ∃ k, k < cfg.maxRetries ∧ oracle j k = true)
    (hfail : ∀ k, k < cfg.maxRetries → oracle i k = false) :
    initPool cfg oracle now st = .error () ∧
    runRetry cfg.maxRetries (oracle i) true = (true, cfg.maxRetries) := by
  constructor
  · unfold initPool
    exact initSlotsAux_error_at cfg oracle now i hm hfail cfg.numBrowsers 0 st
      (by omega) (by omega) (fun j _ hj2 => hearlier j hj2)
  · unfold runRetry
    have h := runRetryAux_all_fail cfg.maxRetries (oracle i) cfg.maxRetries 0
      (by omega) (by omega) (fun k _ hk => hfail k hk)
    simpa using h

/-- C4 witness: the concrete two-slot pool where slot 1 exhausts its three
attempts — init throws and slot 1 issued exactly `maxRetries = 3` runs. -/
theorem initPool_slot_exhaustion_fatal_witness :
    initPool sampleConfig (fun i _ => i == 0) 0 (MState.mk [] [] [] false) = .error () ∧
    runRetry sampleConfig.maxRetries ((fun i _ => i == 0) 1) true = (true, sampleConfig.maxRetries) :=
  initPool_slot_exhaustion_fatal sampleConfig (fun i _ => i == 0) 0
    (MState.mk [] [] [] false) 1 (by decide) (by decide)
    (fun j hj => ⟨0, by decide, by simp [Nat.lt_one_iff.mp hj]⟩)
    (fun k _ => rfl)
